import Mathlib

/-
Shallow embedding of `src/main.py` of the UniswapV3-Python repository.

The program is a sequential client around a blockchain RPC node.  We model the
node (and the ERC20 / router contracts reachable through it) as an abstract,
read-only oracle `World`; every externally visible action of the program
(contract read, nonce fetch, gas-price fetch, transaction build / sign /
submit, receipt wait, log line) is recorded as an `Event`.  A method of the
Python class becomes a Lean function returning `M α = Except Err α × List
Event`: the final value (or the exception that propagated) together with the
trace of actions, in program order.  Python `try/except` blocks that log and
re-raise are modelled by `M.logReraise`.
-/

set_option maxHeartbeats 1000000

/-- Token / contract / account addresses are strings, as in the Python code. -/
abbrev Address := String

/-- Errors the embedded code can raise.
`insufficientBalance` is the `ValueError` at `main.py:177`;
`invalidAbiFormat` is the `ValueError` at `main.py:66`;
`rpc` stands for an arbitrary exception coming out of a web3 call. -/
inductive Err where
  | insufficientBalance (balance amount : Nat)
  | invalidAbiFormat (filename : String)
  | rpc (code : Nat)
deriving DecidableEq, Repr

/-- A transaction receipt (`main.py` uses `receipt['status']`); the Python
receipt dict carries more data, abstracted as `txHash`. -/
structure Receipt where
  status : Nat
  txHash : Nat
deriving DecidableEq, Repr

/-- The approval transaction built at `main.py:148-156`: an `approve(spender,
amount)` call on the token contract, with the build-dict fields. -/
structure ApproveTxData where
  token : Address
  spender : Address
  amount : Nat
  sender : Address
  nonce : Nat
  gas : Nat
  gasPrice : Nat
deriving DecidableEq, Repr

/-- The `exactInputSingle` parameter record built at `main.py:187-196`. -/
structure SwapParams where
  tokenIn : Address
  tokenOut : Address
  fee : Nat
  recipient : Address
  deadline : Nat
  amountIn : Nat
  amountOutMinimum : Nat
  sqrtPriceLimitX96 : Nat
deriving DecidableEq, Repr

/-- The swap transaction built at `main.py:198-203`: an `exactInputSingle`
call on the router contract, with the build-dict fields. -/
structure SwapTxData where
  router : Address
  params : SwapParams
  sender : Address
  nonce : Nat
  gas : Nat
  gasPrice : Nat
deriving DecidableEq, Repr

/-- The two kinds of transaction the program submits. -/
inductive Tx where
  | approve (d : ApproveTxData)
  | swap (d : SwapTxData)
deriving DecidableEq, Repr

/-- Result of `self.account.sign_transaction` (`main.py:158,205`); the signed
object wraps the transaction, exposed as `raw_transaction`. -/
structure SignedTx where
  raw_transaction : Tx
deriving DecidableEq, Repr

/-- `self.account.sign_transaction tx`. -/
def sign_transaction (tx : Tx) : SignedTx := ⟨tx⟩

/-- The log lines the program emits (via `logger.info` / `logger.error`). -/
inductive LogMsg where
  | balanceOfLog (symbol : String) (balance : Nat) (decimals : Nat)
  | allowanceOfLog (symbol : String) (allowance : Nat) (decimals : Nat)
  | sufficientAllowance
  | approvalTxSuccessful (txHash : Nat)
  | usingFeeTier (fee : Nat)
  | swapTxSuccessful (txHash : Nat)
  | swapTxFailed
  | txReceiptLog (r : Receipt)
  | errorInApproval
  | errorInSwap
deriving DecidableEq, Repr

/-- Externally visible actions, in program order. -/
inductive Event where
  | balanceCall (token holder : Address)
  | symbolCall (token : Address)
  | decimalsCall (token : Address)
  | allowanceCall (token owner spender : Address)
  | nonceCall (addr : Address)
  | gasPriceCall
  | blockTimestampCall
  | txBuilt (tx : Tx)
  | txSigned (tx : Tx)
  | txSubmitted (tx : Tx)
  | receiptWaited (txHash : Nat)
  | logInfo (m : LogMsg)
  | logError (m : LogMsg)
deriving DecidableEq, Repr

/-- Configuration: the values `UniswapV3Swap.__init__` reads from
`config.ini` and stores on `self` (`main.py:17-41`).  `swap_router` is the
checksummed router address, `account_address` is `self.account.address`. -/
structure Config where
  fee_tier : Nat
  deadline_minutes : Nat
  swap_router : Address
  account_address : Address

/-- The blockchain node and contracts, as a read-only oracle.  Each field is a
web3 primitive the program calls: contract reads and transaction-machinery
calls may fail (any web3 call can raise), modelled with `Except Err`.
`checksum` is `Web3.to_checksum_address`. -/
structure World where
  checksum : Address → Address
  balanceOf : Address → Address → Except Err Nat
  allowanceOf : Address → Address → Address → Except Err Nat
  symbolOf : Address → Except Err String
  decimalsOf : Address → Except Err Nat
  txCount : Address → Except Err Nat
  gasPrice : Except Err Nat
  latestTimestamp : Except Err Nat
  sendRaw : Tx → Except Err Nat
  waitReceipt : Nat → Except Err Receipt

/-- The computation monad: a result (or propagated exception) together with
the trace of events that happened before returning or raising. -/
abbrev M (α : Type) : Type := Except Err α × List Event

/-- Sequencing: on success continue (concatenating traces); an exception
short-circuits, keeping the trace so far. -/
def M.bind {α β : Type} (x : M α) (f : α → M β) : M β :=
  match x with
  | (Except.ok a, tr) => ((f a).1, tr ++ (f a).2)
  | (Except.error e, tr) => (Except.error e, tr)

instance : Monad M where
  pure a := (Except.ok a, [])
  bind := M.bind

/-- Issue one external call: the event is recorded whether or not the call
succeeds. -/
def M.call {α : Type} (e : Event) (r : Except Err α) : M α := (r, [e])

/-- Emit a log line. -/
def M.emit (e : Event) : M Unit := (Except.ok (), [e])

/-- `raise`. -/
def M.throwE {α : Type} (e : Err) : M α := (Except.error e, [])

/-- Events a `try/except/log/raise` wrapper appends: nothing on success, one
error-log line on an exception. -/
def M.errSuffix {α : Type} (m : LogMsg) : Except Err α → List Event
  | Except.ok _ => []
  | Except.error _ => [Event.logError m]

/-- A Python `try: body except Exception as e: logger.error(...); raise`
block: on an exception the error is logged and re-raised. -/
def M.logReraise {α : Type} (m : LogMsg) (x : M α) : M α :=
  (x.1, x.2 ++ M.errSuffix m x.1)

/-- `check_token_balance` (`main.py:68-83`): default the holder to the
account, checksum the token, read balance, symbol and decimals, log, return
the raw balance. -/
def check_token_balance (w : World) (cfg : Config) (token_address : Address)
    (address : Option Address) : M Nat := do
  let addr := address.getD cfg.account_address
  let token := w.checksum token_address
  let balance ← M.call (Event.balanceCall token addr) (w.balanceOf token addr)
  let symbol ← M.call (Event.symbolCall token) (w.symbolOf token)
  let decimals ← M.call (Event.decimalsCall token) (w.decimalsOf token)
  M.emit (Event.logInfo (LogMsg.balanceOfLog symbol balance decimals))
  pure balance

/-- `check_allowance` (`main.py:85-103`): default the owner to the account,
checksum the token, read the allowance granted to the router, read symbol and
decimals, log, return the raw allowance. -/
def check_allowance (w : World) (cfg : Config) (token_address : Address)
    (owner : Option Address) : M Nat := do
  let ow := owner.getD cfg.account_address
  let token := w.checksum token_address
  let allowance ← M.call (Event.allowanceCall token ow cfg.swap_router)
    (w.allowanceOf token ow cfg.swap_router)
  let symbol ← M.call (Event.symbolCall token) (w.symbolOf token)
  let decimals ← M.call (Event.decimalsCall token) (w.decimalsOf token)
  M.emit (Event.logInfo (LogMsg.allowanceOfLog symbol allowance decimals))
  pure allowance

/-- Body of the `try` block of `approve_token` (`main.py:142-162`), applied to
the already-checksummed token address. -/
def approve_token_body (w : World) (cfg : Config) (token_address : Address)
    (amount : Nat) : M (Option Receipt) := do
  let current_allowance ← check_allowance w cfg token_address none
  if current_allowance ≥ amount then do
    M.emit (Event.logInfo LogMsg.sufficientAllowance)
    pure none
  else do
    let nonce ← M.call (Event.nonceCall cfg.account_address)
      (w.txCount cfg.account_address)
    let gp ← M.call Event.gasPriceCall w.gasPrice
    let approve_tx := Tx.approve
      ⟨token_address, cfg.swap_router, amount, cfg.account_address, nonce, 250000, gp⟩
    M.emit (Event.txBuilt approve_tx)
    let signed_approve_tx := sign_transaction approve_tx
    M.emit (Event.txSigned signed_approve_tx.raw_transaction)
    let approve_tx_hash ← M.call (Event.txSubmitted signed_approve_tx.raw_transaction)
      (w.sendRaw signed_approve_tx.raw_transaction)
    let receipt ← M.call (Event.receiptWaited approve_tx_hash)
      (w.waitReceipt approve_tx_hash)
    M.emit (Event.logInfo (LogMsg.approvalTxSuccessful approve_tx_hash))
    pure (some receipt)

/-- `approve_token` (`main.py:134-165`): checksum the token, then run the
`try` body; a no-op (allowance already sufficient) returns `none` (Python
`None`), a submitted approval returns `some receipt`; exceptions are logged
and re-raised. -/
def approve_token (w : World) (cfg : Config) (token_address : Address)
    (amount : Nat) : M (Option Receipt) :=
  let token := w.checksum token_address
  M.logReraise LogMsg.errorInApproval (approve_token_body w cfg token amount)

/-- Steps of `swap_exact_input_single` after the approval call
(`main.py:181-217`), applied to the already-checksummed token addresses.
Note the ignored approval receipt never feeds into these steps. -/
def swap_after_approval (w : World) (cfg : Config) (token_in token_out : Address)
    (amount_in : Nat) : M Receipt := do
  let ts ← M.call Event.blockTimestampCall w.latestTimestamp
  let deadline := ts + cfg.deadline_minutes * 60
  let fee_tier := cfg.fee_tier
  M.emit (Event.logInfo (LogMsg.usingFeeTier fee_tier))
  let params : SwapParams :=
    { tokenIn := token_in, tokenOut := token_out, fee := fee_tier,
      recipient := cfg.account_address, deadline := deadline,
      amountIn := amount_in, amountOutMinimum := 0, sqrtPriceLimitX96 := 0 }
  let nonce ← M.call (Event.nonceCall cfg.account_address)
    (w.txCount cfg.account_address)
  let gp ← M.call Event.gasPriceCall w.gasPrice
  let swap_tx := Tx.swap ⟨cfg.swap_router, params, cfg.account_address, nonce, 500000, gp⟩
  M.emit (Event.txBuilt swap_tx)
  let signed_swap_tx := sign_transaction swap_tx
  M.emit (Event.txSigned signed_swap_tx.raw_transaction)
  let swap_tx_hash ← M.call (Event.txSubmitted signed_swap_tx.raw_transaction)
    (w.sendRaw signed_swap_tx.raw_transaction)
  let receipt ← M.call (Event.receiptWaited swap_tx_hash) (w.waitReceipt swap_tx_hash)
  if receipt.status == 1 then do
    M.emit (Event.logInfo (LogMsg.swapTxSuccessful swap_tx_hash))
    let _ ← check_token_balance w cfg token_in none
    let _ ← check_token_balance w cfg token_out none
    pure receipt
  else do
    M.emit (Event.logError LogMsg.swapTxFailed)
    M.emit (Event.logError (LogMsg.txReceiptLog receipt))
    pure receipt

/-- Body of the `try` block of `swap_exact_input_single` (`main.py:171-217`):
checksum both tokens, read the input-token balance, raise on insufficient
balance, call `approve_token` unconditionally (result bound but unused),
then the post-approval steps. -/
def swap_exact_input_single_body (w : World) (cfg : Config)
    (token_in token_out : Address) (amount_in : Nat) : M Receipt := do
  let token_in := w.checksum token_in
  let token_out := w.checksum token_out
  let balance ← check_token_balance w cfg token_in none
  if balance < amount_in then
    M.throwE (Err.insufficientBalance balance amount_in)
  else do
    let _approval_receipt ← approve_token w cfg token_in amount_in
    swap_after_approval w cfg token_in token_out amount_in

/-- `swap_exact_input_single` (`main.py:167-220`): the `try` body with the
log-and-re-raise wrapper. -/
def swap_exact_input_single (w : World) (cfg : Config)
    (token_in token_out : Address) (amount_in : Nat) : M Receipt :=
  M.logReraise LogMsg.errorInSwap
    (swap_exact_input_single_body w cfg token_in token_out amount_in)

/-- Parsed JSON values, for the ABI loader. -/
inductive Json where
  | null
  | bool (b : Bool)
  | num (n : Int)
  | str (s : String)
  | arr (elems : List Json)
  | obj (fields : List (String × Json))

/-- The shape-dispatch of `_load_abi` (`main.py:57-66`), applied to the parsed
file content: a list is returned unchanged; a dict containing the key `"abi"`
yields `loaded_json['abi']` (whatever its shape — the code performs no further
check); anything else raises `ValueError`. -/
def load_abi_parsed (filename : String) (loaded_json : Json) : Except Err Json :=
  match loaded_json with
  | Json.arr elems => Except.ok (Json.arr elems)
  | Json.obj fields =>
    match fields.lookup "abi" with
    | some v => Except.ok v
    | none => Except.error (Err.invalidAbiFormat filename)
  | _ => Except.error (Err.invalidAbiFormat filename)

/-- Is a JSON value a bare array? -/
def Json.isArr : Json → Bool
  | Json.arr _ => true
  | _ => false

/-- The `"abi"` field of a JSON object, `none` for any other shape. -/
def Json.abiField : Json → Option Json
  | Json.obj fields => fields.lookup "abi"
  | _ => none

/-- The ABI-loader behaviour the specification describes: it additionally
demands that the value wrapped under the named field be a list, failing with
a format error otherwise.  Kept separate from `load_abi_parsed` (which embeds
the code) to compare the two. -/
def load_abi_spec (filename : String) (loaded_json : Json) : Except Err Json :=
  match loaded_json with
  | Json.arr elems => Except.ok (Json.arr elems)
  | Json.obj fields =>
    match fields.lookup "abi" with
    | some (Json.arr elems) => Except.ok (Json.arr elems)
    | _ => Except.error (Err.invalidAbiFormat filename)
  | _ => Except.error (Err.invalidAbiFormat filename)

/-- Build / sign / submit actions ("no transaction is built, signed, or
submitted"). -/
def isTxAction : Event → Bool
  | Event.txBuilt _ => true
  | Event.txSigned _ => true
  | Event.txSubmitted _ => true
  | _ => false

/-- Transaction-submission events. -/
def isSubmit : Event → Bool
  | Event.txSubmitted _ => true
  | _ => false

/-- Submission events of swap transactions specifically. -/
def isSwapSubmit : Event → Bool
  | Event.txSubmitted (Tx.swap _) => true
  | _ => false

/-- Balance-read (`balanceOf`) events. -/
def isBalanceRead : Event → Bool
  | Event.balanceCall _ _ => true
  | _ => false

/-- Receipt-wait events. -/
def isWait : Event → Bool
  | Event.receiptWaited _ => true
  | _ => false

/-- The events after the last receipt wait of a trace (the post-receipt tail
of a run that obtained its final receipt). -/
def afterLastWait (tr : List Event) : List Event :=
  (tr.reverse.takeWhile (fun e => !isWait e)).reverse

/-- A concrete test configuration. -/
def cfg0 : Config :=
  { fee_tier := 3000, deadline_minutes := 10, swap_router := "R", account_address := "ME" }

/-- A concrete node where every call succeeds and every transaction confirms
with a success-status receipt; the allowance starts at zero. -/
def Wok : World :=
  { checksum := fun a => a
    balanceOf := fun _ _ => Except.ok 100
    allowanceOf := fun _ _ _ => Except.ok 0
    symbolOf := fun _ => Except.ok "TKA"
    decimalsOf := fun _ => Except.ok 18
    txCount := fun _ => Except.ok 7
    gasPrice := Except.ok 5
    latestTimestamp := Except.ok 1000
    sendRaw := fun t => Except.ok (match t with | Tx.approve _ => 11 | Tx.swap _ => 22)
    waitReceipt := fun h => Except.ok ⟨1, h⟩ }

/-- Like `Wok`, but every confirmed transaction carries a failure-status
receipt. -/
def Wfail : World :=
  { Wok with waitReceipt := fun h => Except.ok ⟨0, h⟩ }

@[simp] theorem M.bind_eq {α β : Type} (x : M α) (f : α → M β) :
    x >>= f = M.bind x f := rfl

@[simp] theorem M.pure_eq {α : Type} (a : α) :
    (pure a : M α) = (Except.ok a, []) := rfl

@[simp] theorem M.bind_ok {α β : Type} (a : α) (tr : List Event) (f : α → M β) :
    M.bind (Except.ok a, tr) f = ((f a).1, tr ++ (f a).2) := rfl

@[simp] theorem M.bind_error {α β : Type} (e : Err) (tr : List Event) (f : α → M β) :
    M.bind (Except.error e, tr) f = (Except.error e, tr) := rfl

/-- Run of `check_token_balance` with defaulted holder, when the three
contract reads succeed. -/
theorem check_token_balance_run (w : World) (cfg : Config) (token t1 : Address)
    (b : Nat) (s : String) (d : Nat)
    (ht1 : t1 = w.checksum token)
    (hb : w.balanceOf t1 cfg.account_address = Except.ok b)
    (hs : w.symbolOf t1 = Except.ok s)
    (hd : w.decimalsOf t1 = Except.ok d) :
    check_token_balance w cfg token none =
      (Except.ok b,
       [Event.balanceCall t1 cfg.account_address, Event.symbolCall t1,
        Event.decimalsCall t1,
        Event.logInfo (LogMsg.balanceOfLog s b d)]) := by
  subst ht1
  simp [check_token_balance, M.call, M.emit, hb, hs, hd]

/-- Run of `check_allowance` with defaulted owner, when the three contract
reads succeed. -/
theorem check_allowance_run (w : World) (cfg : Config) (token t1 : Address)
    (al : Nat) (s : String) (d : Nat)
    (ht1 : t1 = w.checksum token)
    (ha : w.allowanceOf t1 cfg.account_address cfg.swap_router = Except.ok al)
    (hs : w.symbolOf t1 = Except.ok s)
    (hd : w.decimalsOf t1 = Except.ok d) :
    check_allowance w cfg token none =
      (Except.ok al,
       [Event.allowanceCall t1 cfg.account_address cfg.swap_router,
        Event.symbolCall t1, Event.decimalsCall t1,
        Event.logInfo (LogMsg.allowanceOfLog s al d)]) := by
  subst ht1
  simp [check_allowance, M.call, M.emit, ha, hs, hd]

/-- Complete run of `approve_token`, when every node call it makes succeeds:
the result is `none` (and the trace stops at the sufficiency log) when the
current allowance `al` already covers `amount`, and otherwise `some r` after
building, signing, submitting and awaiting exactly one approval transaction
for `amount`. -/
theorem approve_token_run (w : World) (cfg : Config) (token t1 t2 : Address)
    (amount al : Nat) (s : String) (d n g h : Nat) (r : Receipt)
    (ht1 : t1 = w.checksum token) (ht2 : t2 = w.checksum t1)
    (ha : w.allowanceOf t2 cfg.account_address cfg.swap_router = Except.ok al)
    (hs : w.symbolOf t2 = Except.ok s)
    (hd : w.decimalsOf t2 = Except.ok d)
    (hn : w.txCount cfg.account_address = Except.ok n)
    (hg : w.gasPrice = Except.ok g)
    (hsend : w.sendRaw (Tx.approve
        ⟨t1, cfg.swap_router, amount, cfg.account_address, n, 250000, g⟩) = Except.ok h)
    (hwait : w.waitReceipt h = Except.ok r) :
    approve_token w cfg token amount =
      (Except.ok (if amount ≤ al then none else some r),
       [Event.allowanceCall t2 cfg.account_address cfg.swap_router,
        Event.symbolCall t2, Event.decimalsCall t2,
        Event.logInfo (LogMsg.allowanceOfLog s al d)]
       ++ if amount ≤ al then
            [Event.logInfo LogMsg.sufficientAllowance]
          else
            [Event.nonceCall cfg.account_address, Event.gasPriceCall,
             Event.txBuilt (Tx.approve
               ⟨t1, cfg.swap_router, amount, cfg.account_address, n, 250000, g⟩),
             Event.txSigned (Tx.approve
               ⟨t1, cfg.swap_router, amount, cfg.account_address, n, 250000, g⟩),
             Event.txSubmitted (Tx.approve
               ⟨t1, cfg.swap_router, amount, cfg.account_address, n, 250000, g⟩),
             Event.receiptWaited h,
             Event.logInfo (LogMsg.approvalTxSuccessful h)]) := by
  have hca := check_allowance_run w cfg t1 t2 al s d ht2 ha hs hd
  subst ht1
  by_cases hle : amount ≤ al
  · simp [approve_token, approve_token_body, M.logReraise, M.errSuffix, M.call, M.emit,
      hca, hle, ge_iff_le]
  · simp [approve_token, approve_token_body, M.logReraise, M.errSuffix, M.call, M.emit,
      sign_transaction, hca, hle, ge_iff_le, hn, hg, hsend, hwait]

/-- Complete run of `swap_exact_input_single`, when the balance covers the
requested amount and every node call succeeds.  `t1`/`o1` are the
once-checksummed token addresses (used in transaction data), `t2`/`o2` the
addresses the balance reads hit, `t3` the address the allowance read hits;
`atx` is the approval transaction, `stx` the swap transaction built from the
parameter record `P`. -/
theorem swap_run (w : World) (cfg : Config) (token_in token_out : Address)
    (t1 t2 t3 o1 o2 : Address) (a b al : Nat) (s2 s3 so : String)
    (d2 d3 dout n g h1 h2 : Nat) (r1 r2 : Receipt) (bo ts : Nat)
    (atx stx : Tx) (P : SwapParams)
    (ht1 : t1 = w.checksum token_in) (ht2 : t2 = w.checksum t1)
    (ht3 : t3 = w.checksum t2)
    (ho1 : o1 = w.checksum token_out) (ho2 : o2 = w.checksum o1)
    (hb : w.balanceOf t2 cfg.account_address = Except.ok b)
    (hs2 : w.symbolOf t2 = Except.ok s2)
    (hd2 : w.decimalsOf t2 = Except.ok d2)
    (hba : a ≤ b)
    (hA : w.allowanceOf t3 cfg.account_address cfg.swap_router = Except.ok al)
    (hs3 : w.symbolOf t3 = Except.ok s3)
    (hd3 : w.decimalsOf t3 = Except.ok d3)
    (hn : w.txCount cfg.account_address = Except.ok n)
    (hg : w.gasPrice = Except.ok g)
    (hts : w.latestTimestamp = Except.ok ts)
    (hatx : atx = Tx.approve ⟨t2, cfg.swap_router, a, cfg.account_address, n, 250000, g⟩)
    (hsendA : w.sendRaw atx = Except.ok h1)
    (hwaitA : w.waitReceipt h1 = Except.ok r1)
    (hP : P = { tokenIn := t1, tokenOut := o1, fee := cfg.fee_tier,
                recipient := cfg.account_address,
                deadline := ts + cfg.deadline_minutes * 60,
                amountIn := a, amountOutMinimum := 0, sqrtPriceLimitX96 := 0 })
    (hstx : stx = Tx.swap ⟨cfg.swap_router, P, cfg.account_address, n, 500000, g⟩)
    (hsendS : w.sendRaw stx = Except.ok h2)
    (hwaitS : w.waitReceipt h2 = Except.ok r2)
    (hbo : w.balanceOf o2 cfg.account_address = Except.ok bo)
    (hso : w.symbolOf o2 = Except.ok so)
    (hdo : w.decimalsOf o2 = Except.ok dout) :
    swap_exact_input_single w cfg token_in token_out a =
      (Except.ok r2,
       [Event.balanceCall t2 cfg.account_address, Event.symbolCall t2,
        Event.decimalsCall t2, Event.logInfo (LogMsg.balanceOfLog s2 b d2),
        Event.allowanceCall t3 cfg.account_address cfg.swap_router,
        Event.symbolCall t3, Event.decimalsCall t3,
        Event.logInfo (LogMsg.allowanceOfLog s3 al d3)]
       ++ (if a ≤ al then
            [Event.logInfo LogMsg.sufficientAllowance]
          else
            [Event.nonceCall cfg.account_address, Event.gasPriceCall,
             Event.txBuilt atx, Event.txSigned atx, Event.txSubmitted atx,
             Event.receiptWaited h1,
             Event.logInfo (LogMsg.approvalTxSuccessful h1)])
       ++ [Event.blockTimestampCall,
           Event.logInfo (LogMsg.usingFeeTier cfg.fee_tier),
           Event.nonceCall cfg.account_address, Event.gasPriceCall,
           Event.txBuilt stx, Event.txSigned stx, Event.txSubmitted stx,
           Event.receiptWaited h2]
       ++ (if r2.status == 1 then
            [Event.logInfo (LogMsg.swapTxSuccessful h2),
             Event.balanceCall t2 cfg.account_address, Event.symbolCall t2,
             Event.decimalsCall t2, Event.logInfo (LogMsg.balanceOfLog s2 b d2),
             Event.balanceCall o2 cfg.account_address, Event.symbolCall o2,
             Event.decimalsCall o2, Event.logInfo (LogMsg.balanceOfLog so bo dout)]
          else
            [Event.logError LogMsg.swapTxFailed,
             Event.logError (LogMsg.txReceiptLog r2)])) := by
  have hcb := check_token_balance_run w cfg t1 t2 b s2 d2 ht2 hb hs2 hd2
  have happ := approve_token_run w cfg t1 t2 t3 a al s3 d3 n g h1 r1 ht2 ht3 hA hs3 hd3
    hn hg (hatx ▸ hsendA) hwaitA
  have hcbo := check_token_balance_run w cfg o1 o2 bo so dout ho2 hbo hso hdo
  have hnotlt : ¬ b < a := Nat.not_lt.mpr hba
  subst ht1 ho1 hatx hP hstx
  by_cases hst : r2.status = 1
  · simp [swap_exact_input_single, swap_exact_input_single_body, swap_after_approval,
      M.logReraise, M.errSuffix, M.call, M.emit, sign_transaction,
      hcb, happ, hcbo, hnotlt, hn, hg, hts, hsendS, hwaitS, hst]
  · simp [swap_exact_input_single, swap_exact_input_single_body, swap_after_approval,
      M.logReraise, M.errSuffix, M.call, M.emit, sign_transaction,
      hcb, happ, hcbo, hnotlt, hn, hg, hts, hsendS, hwaitS, hst]

/-- C1: if the input-token balance `b` read at the start of
`swap_exact_input_single` is below the requested amount `a`, the call raises
the insufficient-funds error right after the balance read, and no transaction
(approval or swap) is built, signed, or submitted. -/
theorem C1_insufficient_balance_rejects (w : World) (cfg : Config)
    (token_in token_out t1 t2 : Address) (a b d : Nat) (s : String)
    (ht1 : t1 = w.checksum token_in) (ht2 : t2 = w.checksum t1)
    (hb : w.balanceOf t2 cfg.account_address = Except.ok b)
    (hs : w.symbolOf t2 = Except.ok s)
    (hd : w.decimalsOf t2 = Except.ok d)
    (hlt : b < a) :
    (swap_exact_input_single w cfg token_in token_out a).1
      = Except.error (Err.insufficientBalance b a) ∧
    (swap_exact_input_single w cfg token_in token_out a).2.filter isTxAction = [] := by
  have hcb := check_token_balance_run w cfg t1 t2 b s d ht2 hb hs hd
  subst ht1
  have hrun : swap_exact_input_single w cfg token_in token_out a =
      (Except.error (Err.insufficientBalance b a),
       [Event.balanceCall t2 cfg.account_address, Event.symbolCall t2,
        Event.decimalsCall t2, Event.logInfo (LogMsg.balanceOfLog s b d),
        Event.logError LogMsg.errorInSwap]) := by
    simp [swap_exact_input_single, swap_exact_input_single_body, M.logReraise,
      M.errSuffix, M.throwE, hcb, hlt]
  rw [hrun]
  exact ⟨rfl, rfl⟩

/-- C1 witness: balance 100 < requested 500 on the concrete node `Wok`. -/
theorem C1_witness :
    (swap_exact_input_single Wok cfg0 "T" "U" 500).1
      = Except.error (Err.insufficientBalance 100 500) ∧
    (swap_exact_input_single Wok cfg0 "T" "U" 500).2.filter isTxAction = [] :=
  C1_insufficient_balance_rejects Wok cfg0 "T" "U" "T" "T" 500 100 18 "TKA"
    rfl rfl rfl rfl rfl (by decide)

/-- C2: when the current allowance `al` already covers the required amount
`amount`, `approve_token` builds, signs and submits nothing and returns the
distinguished no-receipt success value (Python `None`, here `none`). -/
theorem C2_sufficient_allowance_noop (w : World) (cfg : Config)
    (token t1 t2 : Address) (amount al d : Nat) (s : String)
    (ht1 : t1 = w.checksum token) (ht2 : t2 = w.checksum t1)
    (ha : w.allowanceOf t2 cfg.account_address cfg.swap_router = Except.ok al)
    (hs : w.symbolOf t2 = Except.ok s)
    (hd : w.decimalsOf t2 = Except.ok d)
    (hge : amount ≤ al) :
    (approve_token w cfg token amount).1 = Except.ok none ∧
    (approve_token w cfg token amount).2.filter isTxAction = [] := by
  have hca := check_allowance_run w cfg t1 t2 al s d ht2 ha hs hd
  subst ht1
  have hrun : approve_token w cfg token amount =
      (Except.ok none,
       [Event.allowanceCall t2 cfg.account_address cfg.swap_router,
        Event.symbolCall t2, Event.decimalsCall t2,
        Event.logInfo (LogMsg.allowanceOfLog s al d),
        Event.logInfo LogMsg.sufficientAllowance]) := by
    simp [approve_token, approve_token_body, M.logReraise, M.errSuffix, M.emit,
      hca, hge, ge_iff_le]
  rw [hrun]
  exact ⟨rfl, rfl⟩

/-- C2 witness: allowance 0 covers required amount 0 on the concrete node
`Wok`: no transaction, result `none`. -/
theorem C2_witness :
    (approve_token Wok cfg0 "T" 0).1 = Except.ok none ∧
    (approve_token Wok cfg0 "T" 0).2.filter isTxAction = [] :=
  C2_sufficient_allowance_noop Wok cfg0 "T" "T" "T" 0 0 18 "TKA"
    rfl rfl rfl rfl rfl (Nat.le_refl 0)

/-- C3: when the current allowance `al` is below the required amount
`amount`, `approve_token` submits exactly one transaction — an approval for
exactly `amount` (hence for at least `amount`) — waits for its confirmation
receipt, and returns that receipt. -/
theorem C3_insufficient_allowance_submits (w : World) (cfg : Config)
    (token t1 t2 : Address) (amount al : Nat) (s : String) (d n g h : Nat)
    (r : Receipt)
    (ht1 : t1 = w.checksum token) (ht2 : t2 = w.checksum t1)
    (ha : w.allowanceOf t2 cfg.account_address cfg.swap_router = Except.ok al)
    (hs : w.symbolOf t2 = Except.ok s)
    (hd : w.decimalsOf t2 = Except.ok d)
    (hn : w.txCount cfg.account_address = Except.ok n)
    (hg : w.gasPrice = Except.ok g)
    (hsend : w.sendRaw (Tx.approve
        ⟨t1, cfg.swap_router, amount, cfg.account_address, n, 250000, g⟩) = Except.ok h)
    (hwait : w.waitReceipt h = Except.ok r)
    (hlt : al < amount) :
    (approve_token w cfg token amount).1 = Except.ok (some r) ∧
    (approve_token w cfg token amount).2.filter isSubmit
      = [Event.txSubmitted (Tx.approve
          ⟨t1, cfg.swap_router, amount, cfg.account_address, n, 250000, g⟩)] ∧
    Event.receiptWaited h ∈ (approve_token w cfg token amount).2 := by
  have hnle : ¬ amount ≤ al := Nat.not_le.mpr hlt
  have hrun := approve_token_run w cfg token t1 t2 amount al s d n g h r
    ht1 ht2 ha hs hd hn hg hsend hwait
  rw [if_neg hnle] at hrun
  rw [if_neg hnle] at hrun
  rw [hrun]
  refine ⟨rfl, rfl, ?_⟩
  simp

/-- C3 witness: allowance 0 < required 5 on the concrete node `Wok`: one
approval submission for amount 5, receipt returned. -/
theorem C3_witness :
    (approve_token Wok cfg0 "T" 5).1 = Except.ok (some ⟨1, 11⟩) ∧
    (approve_token Wok cfg0 "T" 5).2.filter isSubmit
      = [Event.txSubmitted (Tx.approve ⟨"T", "R", 5, "ME", 7, 250000, 5⟩)] ∧
    Event.receiptWaited 11 ∈ (approve_token Wok cfg0 "T" 5).2 :=
  C3_insufficient_allowance_submits Wok cfg0 "T" "T" "T" 5 0 "TKA" 18 7 5 11 ⟨1, 11⟩
    rfl rfl rfl rfl rfl rfl rfl rfl rfl (by decide)

/-- C4: after the swap receipt `r2` is obtained, the events after the last
receipt wait contain exactly two balance reads — input token then output
token — when `r2.status = 1`, and none otherwise. -/
theorem C4_post_receipt_balance_reads (w : World) (cfg : Config)
    (token_in token_out : Address)
    (t1 t2 t3 o1 o2 : Address) (a b al : Nat) (s2 s3 so : String)
    (d2 d3 dout n g h1 h2 : Nat) (r1 r2 : Receipt) (bo ts : Nat)
    (atx stx : Tx) (P : SwapParams)
    (ht1 : t1 = w.checksum token_in) (ht2 : t2 = w.checksum t1)
    (ht3 : t3 = w.checksum t2)
    (ho1 : o1 = w.checksum token_out) (ho2 : o2 = w.checksum o1)
    (hb : w.balanceOf t2 cfg.account_address = Except.ok b)
    (hs2 : w.symbolOf t2 = Except.ok s2)
    (hd2 : w.decimalsOf t2 = Except.ok d2)
    (hba : a ≤ b)
    (hA : w.allowanceOf t3 cfg.account_address cfg.swap_router = Except.ok al)
    (hs3 : w.symbolOf t3 = Except.ok s3)
    (hd3 : w.decimalsOf t3 = Except.ok d3)
    (hn : w.txCount cfg.account_address = Except.ok n)
    (hg : w.gasPrice = Except.ok g)
    (hts : w.latestTimestamp = Except.ok ts)
    (hatx : atx = Tx.approve ⟨t2, cfg.swap_router, a, cfg.account_address, n, 250000, g⟩)
    (hsendA : w.sendRaw atx = Except.ok h1)
    (hwaitA : w.waitReceipt h1 = Except.ok r1)
    (hP : P = { tokenIn := t1, tokenOut := o1, fee := cfg.fee_tier,
                recipient := cfg.account_address,
                deadline := ts + cfg.deadline_minutes * 60,
                amountIn := a, amountOutMinimum := 0, sqrtPriceLimitX96 := 0 })
    (hstx : stx = Tx.swap ⟨cfg.swap_router, P, cfg.account_address, n, 500000, g⟩)
    (hsendS : w.sendRaw stx = Except.ok h2)
    (hwaitS : w.waitReceipt h2 = Except.ok r2)
    (hbo : w.balanceOf o2 cfg.account_address = Except.ok bo)
    (hso : w.symbolOf o2 = Except.ok so)
    (hdo : w.decimalsOf o2 = Except.ok dout) :
    (afterLastWait (swap_exact_input_single w cfg token_in token_out a).2).filter
        isBalanceRead
      = if r2.status == 1 then
          [Event.balanceCall t2 cfg.account_address,
           Event.balanceCall o2 cfg.account_address]
        else [] := by
  have hrun := swap_run w cfg token_in token_out t1 t2 t3 o1 o2 a b al s2 s3 so
    d2 d3 dout n g h1 h2 r1 r2 bo ts atx stx P ht1 ht2 ht3 ho1 ho2 hb hs2 hd2 hba
    hA hs3 hd3 hn hg hts hatx hsendA hwaitA hP hstx hsendS hwaitS hbo hso hdo
  rw [hrun]
  by_cases hal : a ≤ al <;> by_cases hst : r2.status = 1 <;>
    simp [hal, hst, afterLastWait, isWait, isBalanceRead, List.takeWhile, List.filter]

/-- C4 witness: on `Wok` (success receipts) the post-receipt tail holds the
two balance reads, input token then output token. -/
theorem C4_witness :
    (afterLastWait (swap_exact_input_single Wok cfg0 "T" "U" 5).2).filter isBalanceRead
      = [Event.balanceCall "T" "ME", Event.balanceCall "U" "ME"] :=
  C4_post_receipt_balance_reads Wok cfg0 "T" "U" "T" "T" "T" "U" "U" 5 100 0
    "TKA" "TKA" "TKA" 18 18 18 7 5 11 22 ⟨1, 11⟩ ⟨1, 22⟩ 100 1000
    (Tx.approve ⟨"T", "R", 5, "ME", 7, 250000, 5⟩)
    (Tx.swap ⟨"R", { tokenIn := "T", tokenOut := "U", fee := 3000, recipient := "ME",
                     deadline := 1600, amountIn := 5, amountOutMinimum := 0,
                     sqrtPriceLimitX96 := 0 }, "ME", 7, 500000, 5⟩)
    { tokenIn := "T", tokenOut := "U", fee := 3000, recipient := "ME",
      deadline := 1600, amountIn := 5, amountOutMinimum := 0, sqrtPriceLimitX96 := 0 }
    rfl rfl rfl rfl rfl rfl rfl rfl (by decide) rfl rfl rfl rfl rfl rfl rfl rfl rfl
    rfl rfl rfl rfl rfl rfl rfl

/-- C5: two distinct failure channels.  A failure-status swap receipt is
returned, not raised (`(… ).1 = Except.ok r2` even though `r2.status ≠ 1`);
whereas any exception propagating out of the earlier steps of any run leaves
an error log as the last event and re-raises (the result is that error). -/
theorem C5_two_failure_channels (w : World) (cfg : Config)
    (token_in token_out : Address)
    (t1 t2 t3 o1 o2 : Address) (a b al : Nat) (s2 s3 so : String)
    (d2 d3 dout n g h1 h2 : Nat) (r1 r2 : Receipt) (bo ts : Nat)
    (atx stx : Tx) (P : SwapParams)
    (ht1 : t1 = w.checksum token_in) (ht2 : t2 = w.checksum t1)
    (ht3 : t3 = w.checksum t2)
    (ho1 : o1 = w.checksum token_out) (ho2 : o2 = w.checksum o1)
    (hb : w.balanceOf t2 cfg.account_address = Except.ok b)
    (hs2 : w.symbolOf t2 = Except.ok s2)
    (hd2 : w.decimalsOf t2 = Except.ok d2)
    (hba : a ≤ b)
    (hA : w.allowanceOf t3 cfg.account_address cfg.swap_router = Except.ok al)
    (hs3 : w.symbolOf t3 = Except.ok s3)
    (hd3 : w.decimalsOf t3 = Except.ok d3)
    (hn : w.txCount cfg.account_address = Except.ok n)
    (hg : w.gasPrice = Except.ok g)
    (hts : w.latestTimestamp = Except.ok ts)
    (hatx : atx = Tx.approve ⟨t2, cfg.swap_router, a, cfg.account_address, n, 250000, g⟩)
    (hsendA : w.sendRaw atx = Except.ok h1)
    (hwaitA : w.waitReceipt h1 = Except.ok r1)
    (hP : P = { tokenIn := t1, tokenOut := o1, fee := cfg.fee_tier,
                recipient := cfg.account_address,
                deadline := ts + cfg.deadline_minutes * 60,
                amountIn := a, amountOutMinimum := 0, sqrtPriceLimitX96 := 0 })
    (hstx : stx = Tx.swap ⟨cfg.swap_router, P, cfg.account_address, n, 500000, g⟩)
    (hsendS : w.sendRaw stx = Except.ok h2)
    (hwaitS : w.waitReceipt h2 = Except.ok r2)
    (hbo : w.balanceOf o2 cfg.account_address = Except.ok bo)
    (hso : w.symbolOf o2 = Except.ok so)
    (hdo : w.decimalsOf o2 = Except.ok dout)
    (hst : r2.status ≠ 1) :
    (swap_exact_input_single w cfg token_in token_out a).1 = Except.ok r2 ∧
    ∀ (wx : World) (cfgx : Config) (tinx toutx : Address) (ax : Nat) (e : Err),
      (swap_exact_input_single wx cfgx tinx toutx ax).1 = Except.error e →
      ∃ tr, (swap_exact_input_single wx cfgx tinx toutx ax).2
              = tr ++ [Event.logError LogMsg.errorInSwap] := by
  constructor
  · have hrun := swap_run w cfg token_in token_out t1 t2 t3 o1 o2 a b al s2 s3 so
      d2 d3 dout n g h1 h2 r1 r2 bo ts atx stx P ht1 ht2 ht3 ho1 ho2 hb hs2 hd2 hba
      hA hs3 hd3 hn hg hts hatx hsendA hwaitA hP hstx hsendS hwaitS hbo hso hdo
    rw [hrun]
  · intro wx cfgx tinx toutx ax e herr
    refine ⟨(swap_exact_input_single_body wx cfgx tinx toutx ax).2, ?_⟩
    have hres : (swap_exact_input_single_body wx cfgx tinx toutx ax).1
        = Except.error e := herr
    simp [swap_exact_input_single, M.logReraise, M.errSuffix, hres]

/-- C5 witness: on `Wfail` the swap confirms with a status-0 receipt, and the
call returns that receipt instead of raising. -/
theorem C5_witness :
    (swap_exact_input_single Wfail cfg0 "T" "U" 5).1 = Except.ok ⟨0, 22⟩ :=
  (C5_two_failure_channels Wfail cfg0 "T" "U" "T" "T" "T" "U" "U" 5 100 0
    "TKA" "TKA" "TKA" 18 18 18 7 5 11 22 ⟨0, 11⟩ ⟨0, 22⟩ 100 1000
    (Tx.approve ⟨"T", "R", 5, "ME", 7, 250000, 5⟩)
    (Tx.swap ⟨"R", { tokenIn := "T", tokenOut := "U", fee := 3000, recipient := "ME",
                     deadline := 1600, amountIn := 5, amountOutMinimum := 0,
                     sqrtPriceLimitX96 := 0 }, "ME", 7, 500000, 5⟩)
    { tokenIn := "T", tokenOut := "U", fee := 3000, recipient := "ME",
      deadline := 1600, amountIn := 5, amountOutMinimum := 0, sqrtPriceLimitX96 := 0 }
    rfl rfl rfl rfl rfl rfl rfl rfl (by decide) rfl rfl rfl rfl rfl rfl rfl rfl rfl
    rfl rfl rfl rfl rfl rfl rfl (by decide)).1

/-- C7: the swap submits exactly one router transaction, and its
`exactInputSingle` parameter record has `fee` = configured tier, `recipient` =
the signing account, `amountIn` = the requested amount, `amountOutMinimum` = 0
and `sqrtPriceLimitX96` = 0. -/
theorem C7_swap_params_fields (w : World) (cfg : Config)
    (token_in token_out : Address)
    (t1 t2 t3 o1 o2 : Address) (a b al : Nat) (s2 s3 so : String)
    (d2 d3 dout n g h1 h2 : Nat) (r1 r2 : Receipt) (bo ts : Nat)
    (atx stx : Tx) (P : SwapParams)
    (ht1 : t1 = w.checksum token_in) (ht2 : t2 = w.checksum t1)
    (ht3 : t3 = w.checksum t2)
    (ho1 : o1 = w.checksum token_out) (ho2 : o2 = w.checksum o1)
    (hb : w.balanceOf t2 cfg.account_address = Except.ok b)
    (hs2 : w.symbolOf t2 = Except.ok s2)
    (hd2 : w.decimalsOf t2 = Except.ok d2)
    (hba : a ≤ b)
    (hA : w.allowanceOf t3 cfg.account_address cfg.swap_router = Except.ok al)
    (hs3 : w.symbolOf t3 = Except.ok s3)
    (hd3 : w.decimalsOf t3 = Except.ok d3)
    (hn : w.txCount cfg.account_address = Except.ok n)
    (hg : w.gasPrice = Except.ok g)
    (hts : w.latestTimestamp = Except.ok ts)
    (hatx : atx = Tx.approve ⟨t2, cfg.swap_router, a, cfg.account_address, n, 250000, g⟩)
    (hsendA : w.sendRaw atx = Except.ok h1)
    (hwaitA : w.waitReceipt h1 = Except.ok r1)
    (hP : P = { tokenIn := t1, tokenOut := o1, fee := cfg.fee_tier,
                recipient := cfg.account_address,
                deadline := ts + cfg.deadline_minutes * 60,
                amountIn := a, amountOutMinimum := 0, sqrtPriceLimitX96 := 0 })
    (hstx : stx = Tx.swap ⟨cfg.swap_router, P, cfg.account_address, n, 500000, g⟩)
    (hsendS : w.sendRaw stx = Except.ok h2)
    (hwaitS : w.waitReceipt h2 = Except.ok r2)
    (hbo : w.balanceOf o2 cfg.account_address = Except.ok bo)
    (hso : w.symbolOf o2 = Except.ok so)
    (hdo : w.decimalsOf o2 = Except.ok dout) :
    (swap_exact_input_single w cfg token_in token_out a).2.filter isSwapSubmit
      = [Event.txSubmitted stx] ∧
    P.fee = cfg.fee_tier ∧
    P.recipient = cfg.account_address ∧
    P.amountIn = a ∧
    P.amountOutMinimum = 0 ∧
    P.sqrtPriceLimitX96 = 0 := by
  have hrun := swap_run w cfg token_in token_out t1 t2 t3 o1 o2 a b al s2 s3 so
    d2 d3 dout n g h1 h2 r1 r2 bo ts atx stx P ht1 ht2 ht3 ho1 ho2 hb hs2 hd2 hba
    hA hs3 hd3 hn hg hts hatx hsendA hwaitA hP hstx hsendS hwaitS hbo hso hdo
  rw [hrun]
  subst hP hatx hstx
  refine ⟨?_, rfl, rfl, rfl, rfl, rfl⟩
  by_cases hal : a ≤ al <;> by_cases hst : r2.status = 1 <;>
    simp [hal, hst, isSwapSubmit, List.filter]

/-- C7 witness: the concrete run on `Wok` submits exactly one swap
transaction, with the claimed parameter fields. -/
theorem C7_witness :
    (swap_exact_input_single Wok cfg0 "T" "U" 5).2.filter isSwapSubmit
      = [Event.txSubmitted (Tx.swap ⟨"R",
          { tokenIn := "T", tokenOut := "U", fee := 3000, recipient := "ME",
            deadline := 1600, amountIn := 5, amountOutMinimum := 0,
            sqrtPriceLimitX96 := 0 }, "ME", 7, 500000, 5⟩)] ∧
    (3000 : Nat) = cfg0.fee_tier ∧
    ("ME" : Address) = cfg0.account_address ∧
    (5 : Nat) = 5 ∧
    (0 : Nat) = 0 ∧
    (0 : Nat) = 0 :=
  C7_swap_params_fields Wok cfg0 "T" "U" "T" "T" "T" "U" "U" 5 100 0
    "TKA" "TKA" "TKA" 18 18 18 7 5 11 22 ⟨1, 11⟩ ⟨1, 22⟩ 100 1000
    (Tx.approve ⟨"T", "R", 5, "ME", 7, 250000, 5⟩)
    (Tx.swap ⟨"R", { tokenIn := "T", tokenOut := "U", fee := 3000, recipient := "ME",
                     deadline := 1600, amountIn := 5, amountOutMinimum := 0,
                     sqrtPriceLimitX96 := 0 }, "ME", 7, 500000, 5⟩)
    { tokenIn := "T", tokenOut := "U", fee := 3000, recipient := "ME",
      deadline := 1600, amountIn := 5, amountOutMinimum := 0, sqrtPriceLimitX96 := 0 }
    rfl rfl rfl rfl rfl rfl rfl rfl (by decide) rfl rfl rfl rfl rfl rfl rfl rfl rfl
    rfl rfl rfl rfl rfl rfl rfl

/-- C8: the deadline passed in the submitted swap parameters equals the
latest block timestamp plus the configured minutes times 60, in exact `Nat`
arithmetic. -/
theorem C8_deadline_computation (w : World) (cfg : Config)
    (token_in token_out : Address)
    (t1 t2 t3 o1 o2 : Address) (a b al : Nat) (s2 s3 so : String)
    (d2 d3 dout n g h1 h2 : Nat) (r1 r2 : Receipt) (bo ts : Nat)
    (atx stx : Tx) (P : SwapParams)
    (ht1 : t1 = w.checksum token_in) (ht2 : t2 = w.checksum t1)
    (ht3 : t3 = w.checksum t2)
    (ho1 : o1 = w.checksum token_out) (ho2 : o2 = w.checksum o1)
    (hb : w.balanceOf t2 cfg.account_address = Except.ok b)
    (hs2 : w.symbolOf t2 = Except.ok s2)
    (hd2 : w.decimalsOf t2 = Except.ok d2)
    (hba : a ≤ b)
    (hA : w.allowanceOf t3 cfg.account_address cfg.swap_router = Except.ok al)
    (hs3 : w.symbolOf t3 = Except.ok s3)
    (hd3 : w.decimalsOf t3 = Except.ok d3)
    (hn : w.txCount cfg.account_address = Except.ok n)
    (hg : w.gasPrice = Except.ok g)
    (hts : w.latestTimestamp = Except.ok ts)
    (hatx : atx = Tx.approve ⟨t2, cfg.swap_router, a, cfg.account_address, n, 250000, g⟩)
    (hsendA : w.sendRaw atx = Except.ok h1)
    (hwaitA : w.waitReceipt h1 = Except.ok r1)
    (hP : P = { tokenIn := t1, tokenOut := o1, fee := cfg.fee_tier,
                recipient := cfg.account_address,
                deadline := ts + cfg.deadline_minutes * 60,
                amountIn := a, amountOutMinimum := 0, sqrtPriceLimitX96 := 0 })
    (hstx : stx = Tx.swap ⟨cfg.swap_router, P, cfg.account_address, n, 500000, g⟩)
    (hsendS : w.sendRaw stx = Except.ok h2)
    (hwaitS : w.waitReceipt h2 = Except.ok r2)
    (hbo : w.balanceOf o2 cfg.account_address = Except.ok bo)
    (hso : w.symbolOf o2 = Except.ok so)
    (hdo : w.decimalsOf o2 = Except.ok dout) :
    (swap_exact_input_single w cfg token_in token_out a).2.filter isSwapSubmit
      = [Event.txSubmitted stx] ∧
    P.deadline = ts + cfg.deadline_minutes * 60 := by
  have hrun := swap_run w cfg token_in token_out t1 t2 t3 o1 o2 a b al s2 s3 so
    d2 d3 dout n g h1 h2 r1 r2 bo ts atx stx P ht1 ht2 ht3 ho1 ho2 hb hs2 hd2 hba
    hA hs3 hd3 hn hg hts hatx hsendA hwaitA hP hstx hsendS hwaitS hbo hso hdo
  rw [hrun]
  subst hP hatx hstx
  refine ⟨?_, rfl⟩
  by_cases hal : a ≤ al <;> by_cases hst : r2.status = 1 <;>
    simp [hal, hst, isSwapSubmit, List.filter]

/-- C8 witness: block timestamp 1000, 10 configured minutes, deadline 1600. -/
theorem C8_witness :
    (swap_exact_input_single Wok cfg0 "T" "U" 5).2.filter isSwapSubmit
      = [Event.txSubmitted (Tx.swap ⟨"R",
          { tokenIn := "T", tokenOut := "U", fee := 3000, recipient := "ME",
            deadline := 1600, amountIn := 5, amountOutMinimum := 0,
            sqrtPriceLimitX96 := 0 }, "ME", 7, 500000, 5⟩)] ∧
    (1600 : Nat) = 1000 + cfg0.deadline_minutes * 60 :=
  C8_deadline_computation Wok cfg0 "T" "U" "T" "T" "T" "U" "U" 5 100 0
    "TKA" "TKA" "TKA" 18 18 18 7 5 11 22 ⟨1, 11⟩ ⟨1, 22⟩ 100 1000
    (Tx.approve ⟨"T", "R", 5, "ME", 7, 250000, 5⟩)
    (Tx.swap ⟨"R", { tokenIn := "T", tokenOut := "U", fee := 3000, recipient := "ME",
                     deadline := 1600, amountIn := 5, amountOutMinimum := 0,
                     sqrtPriceLimitX96 := 0 }, "ME", 7, 500000, 5⟩)
    { tokenIn := "T", tokenOut := "U", fee := 3000, recipient := "ME",
      deadline := 1600, amountIn := 5, amountOutMinimum := 0, sqrtPriceLimitX96 := 0 }
    rfl rfl rfl rfl rfl rfl rfl rfl (by decide) rfl rfl rfl rfl rfl rfl rfl rfl rfl
    rfl rfl rfl rfl rfl rfl rfl

/-- C9: once the balance precondition passes, the swap's trace is the
balance-check trace, then the trace of `approve_token` called with exactly
the swap's input amount — whatever the allowance oracle answers, no-op or
submitted transaction — and then a remainder that is the same for any
allowance oracle and any approval outcome; the final result is also the
same.  (`{w with allowanceOf := f}` is `w` with an arbitrary replacement
allowance oracle.) -/
theorem C9_approval_unconditional_nonbranching (w : World) (cfg : Config)
    (token_in token_out : Address) (a b : Nat)
    (f : Address → Address → Address → Except Err Nat)
    (v1 v2 : Option Receipt) (cbtr tr1 tr2 : List Event)
    (hcb : check_token_balance w cfg (w.checksum token_in) none = (Except.ok b, cbtr))
    (hge : ¬ b < a)
    (h1 : approve_token w cfg (w.checksum token_in) a = (Except.ok v1, tr1))
    (h2 : approve_token {w with allowanceOf := f} cfg (w.checksum token_in) a
            = (Except.ok v2, tr2)) :
    (swap_exact_input_single w cfg token_in token_out a).2
      = cbtr ++ tr1
        ++ ((swap_after_approval w cfg (w.checksum token_in) (w.checksum token_out) a).2
            ++ M.errSuffix LogMsg.errorInSwap
                (swap_after_approval w cfg (w.checksum token_in) (w.checksum token_out) a).1) ∧
    (swap_exact_input_single {w with allowanceOf := f} cfg token_in token_out a).2
      = cbtr ++ tr2
        ++ ((swap_after_approval w cfg (w.checksum token_in) (w.checksum token_out) a).2
            ++ M.errSuffix LogMsg.errorInSwap
                (swap_after_approval w cfg (w.checksum token_in) (w.checksum token_out) a).1) ∧
    (swap_exact_input_single w cfg token_in token_out a).1
      = (swap_exact_input_single {w with allowanceOf := f} cfg token_in token_out a).1 := by
  have hw2cb : check_token_balance {w with allowanceOf := f} cfg
      (w.checksum token_in) none = (Except.ok b, cbtr) := hcb
  have hsa : swap_after_approval {w with allowanceOf := f} cfg
      (w.checksum token_in) (w.checksum token_out) a
      = swap_after_approval w cfg (w.checksum token_in) (w.checksum token_out) a := rfl
  refine ⟨?_, ?_, ?_⟩
  · simp [swap_exact_input_single, swap_exact_input_single_body, M.logReraise,
      hcb, hge, h1]
  · simp [swap_exact_input_single, swap_exact_input_single_body, M.logReraise,
      hw2cb, hge, h2, hsa]
  · simp [swap_exact_input_single, swap_exact_input_single_body, M.logReraise,
      hcb, hw2cb, hge, h1, h2, hsa]

/-- C9 witness: on `Wok` (allowance 0, approval transaction issued) versus the
same node answering allowance 1000000 (approval no-op), the remainder of the
trace and the final result coincide. -/
theorem C9_witness :
    (swap_exact_input_single Wok cfg0 "T" "U" 5).2
      = [Event.balanceCall "T" "ME", Event.symbolCall "T", Event.decimalsCall "T",
         Event.logInfo (LogMsg.balanceOfLog "TKA" 100 18)]
        ++ [Event.allowanceCall "T" "ME" "R", Event.symbolCall "T",
            Event.decimalsCall "T", Event.logInfo (LogMsg.allowanceOfLog "TKA" 0 18),
            Event.nonceCall "ME", Event.gasPriceCall,
            Event.txBuilt (Tx.approve ⟨"T", "R", 5, "ME", 7, 250000, 5⟩),
            Event.txSigned (Tx.approve ⟨"T", "R", 5, "ME", 7, 250000, 5⟩),
            Event.txSubmitted (Tx.approve ⟨"T", "R", 5, "ME", 7, 250000, 5⟩),
            Event.receiptWaited 11, Event.logInfo (LogMsg.approvalTxSuccessful 11)]
        ++ ((swap_after_approval Wok cfg0 "T" "U" 5).2
            ++ M.errSuffix LogMsg.errorInSwap (swap_after_approval Wok cfg0 "T" "U" 5).1) ∧
    (swap_exact_input_single
        {Wok with allowanceOf := fun _ _ _ => Except.ok 1000000} cfg0 "T" "U" 5).2
      = [Event.balanceCall "T" "ME", Event.symbolCall "T", Event.decimalsCall "T",
         Event.logInfo (LogMsg.balanceOfLog "TKA" 100 18)]
        ++ [Event.allowanceCall "T" "ME" "R", Event.symbolCall "T",
            Event.decimalsCall "T",
            Event.logInfo (LogMsg.allowanceOfLog "TKA" 1000000 18),
            Event.logInfo LogMsg.sufficientAllowance]
        ++ ((swap_after_approval Wok cfg0 "T" "U" 5).2
            ++ M.errSuffix LogMsg.errorInSwap (swap_after_approval Wok cfg0 "T" "U" 5).1) ∧
    (swap_exact_input_single Wok cfg0 "T" "U" 5).1
      = (swap_exact_input_single
          {Wok with allowanceOf := fun _ _ _ => Except.ok 1000000} cfg0 "T" "U" 5).1 :=
  C9_approval_unconditional_nonbranching Wok cfg0 "T" "U" 5 100
    (fun _ _ _ => Except.ok 1000000) (some ⟨1, 11⟩) none
    [Event.balanceCall "T" "ME", Event.symbolCall "T", Event.decimalsCall "T",
     Event.logInfo (LogMsg.balanceOfLog "TKA" 100 18)]
    [Event.allowanceCall "T" "ME" "R", Event.symbolCall "T", Event.decimalsCall "T",
     Event.logInfo (LogMsg.allowanceOfLog "TKA" 0 18),
     Event.nonceCall "ME", Event.gasPriceCall,
     Event.txBuilt (Tx.approve ⟨"T", "R", 5, "ME", 7, 250000, 5⟩),
     Event.txSigned (Tx.approve ⟨"T", "R", 5, "ME", 7, 250000, 5⟩),
     Event.txSubmitted (Tx.approve ⟨"T", "R", 5, "ME", 7, 250000, 5⟩),
     Event.receiptWaited 11, Event.logInfo (LogMsg.approvalTxSuccessful 11)]
    [Event.allowanceCall "T" "ME" "R", Event.symbolCall "T", Event.decimalsCall "T",
     Event.logInfo (LogMsg.allowanceOfLog "TKA" 1000000 18),
     Event.logInfo LogMsg.sufficientAllowance]
    rfl (by decide) rfl rfl

/-- C10: `approve_token` never inspects the receipt's status: for an
arbitrary receipt `r1` (any status) it logs success and returns
`some r1`, and `swap_exact_input_single` still builds and submits the swap
transaction afterwards. -/
theorem C10_approval_receipt_status_ignored (w : World) (cfg : Config)
    (token_in token_out : Address)
    (t1 t2 t3 o1 o2 : Address) (a b al : Nat) (s2 s3 so : String)
    (d2 d3 dout n g h1 h2 : Nat) (r1 r2 : Receipt) (bo ts : Nat)
    (atx stx : Tx) (P : SwapParams)
    (ht1 : t1 = w.checksum token_in) (ht2 : t2 = w.checksum t1)
    (ht3 : t3 = w.checksum t2)
    (ho1 : o1 = w.checksum token_out) (ho2 : o2 = w.checksum o1)
    (hb : w.balanceOf t2 cfg.account_address = Except.ok b)
    (hs2 : w.symbolOf t2 = Except.ok s2)
    (hd2 : w.decimalsOf t2 = Except.ok d2)
    (hba : a ≤ b)
    (hA : w.allowanceOf t3 cfg.account_address cfg.swap_router = Except.ok al)
    (hs3 : w.symbolOf t3 = Except.ok s3)
    (hd3 : w.decimalsOf t3 = Except.ok d3)
    (hn : w.txCount cfg.account_address = Except.ok n)
    (hg : w.gasPrice = Except.ok g)
    (hts : w.latestTimestamp = Except.ok ts)
    (hatx : atx = Tx.approve ⟨t2, cfg.swap_router, a, cfg.account_address, n, 250000, g⟩)
    (hsendA : w.sendRaw atx = Except.ok h1)
    (hwaitA : w.waitReceipt h1 = Except.ok r1)
    (hP : P = { tokenIn := t1, tokenOut := o1, fee := cfg.fee_tier,
                recipient := cfg.account_address,
                deadline := ts + cfg.deadline_minutes * 60,
                amountIn := a, amountOutMinimum := 0, sqrtPriceLimitX96 := 0 })
    (hstx : stx = Tx.swap ⟨cfg.swap_router, P, cfg.account_address, n, 500000, g⟩)
    (hsendS : w.sendRaw stx = Except.ok h2)
    (hwaitS : w.waitReceipt h2 = Except.ok r2)
    (hbo : w.balanceOf o2 cfg.account_address = Except.ok bo)
    (hso : w.symbolOf o2 = Except.ok so)
    (hdo : w.decimalsOf o2 = Except.ok dout)
    (hlt : al < a) :
    (approve_token w cfg t1 a).1 = Except.ok (some r1) ∧
    Event.logInfo (LogMsg.approvalTxSuccessful h1) ∈ (approve_token w cfg t1 a).2 ∧
    Event.txSubmitted stx ∈ (swap_exact_input_single w cfg token_in token_out a).2 := by
  have hnle : ¬ a ≤ al := Nat.not_le.mpr hlt
  have happ := approve_token_run w cfg t1 t2 t3 a al s3 d3 n g h1 r1 ht2 ht3 hA hs3 hd3
    hn hg (hatx ▸ hsendA) hwaitA
  rw [if_neg hnle] at happ
  rw [if_neg hnle] at happ
  have hrun := swap_run w cfg token_in token_out t1 t2 t3 o1 o2 a b al s2 s3 so
    d2 d3 dout n g h1 h2 r1 r2 bo ts atx stx P ht1 ht2 ht3 ho1 ho2 hb hs2 hd2 hba
    hA hs3 hd3 hn hg hts hatx hsendA hwaitA hP hstx hsendS hwaitS hbo hso hdo
  refine ⟨by rw [happ], by rw [happ]; simp, ?_⟩
  rw [hrun]
  by_cases hst : r2.status = 1 <;> simp [hnle, hst]

/-- C10 witness: on `Wfail` the approval receipt has failure status 0, yet
`approve_token` returns it as success and the swap transaction is still
submitted. -/
theorem C10_witness :
    (approve_token Wfail cfg0 "T" 5).1 = Except.ok (some ⟨0, 11⟩) ∧
    Event.logInfo (LogMsg.approvalTxSuccessful 11) ∈ (approve_token Wfail cfg0 "T" 5).2 ∧
    Event.txSubmitted (Tx.swap ⟨"R",
        { tokenIn := "T", tokenOut := "U", fee := 3000, recipient := "ME",
          deadline := 1600, amountIn := 5, amountOutMinimum := 0,
          sqrtPriceLimitX96 := 0 }, "ME", 7, 500000, 5⟩)
      ∈ (swap_exact_input_single Wfail cfg0 "T" "U" 5).2 :=
  C10_approval_receipt_status_ignored Wfail cfg0 "T" "U" "T" "T" "T" "U" "U" 5 100 0
    "TKA" "TKA" "TKA" 18 18 18 7 5 11 22 ⟨0, 11⟩ ⟨0, 22⟩ 100 1000
    (Tx.approve ⟨"T", "R", 5, "ME", 7, 250000, 5⟩)
    (Tx.swap ⟨"R", { tokenIn := "T", tokenOut := "U", fee := 3000, recipient := "ME",
                     deadline := 1600, amountIn := 5, amountOutMinimum := 0,
                     sqrtPriceLimitX96 := 0 }, "ME", 7, 500000, 5⟩)
    { tokenIn := "T", tokenOut := "U", fee := 3000, recipient := "ME",
      deadline := 1600, amountIn := 5, amountOutMinimum := 0, sqrtPriceLimitX96 := 0 }
    rfl rfl rfl rfl rfl rfl rfl rfl (by decide) rfl rfl rfl rfl rfl rfl rfl rfl rfl
    rfl rfl rfl rfl rfl rfl rfl (by decide)

/-- C6 counterexample: `{"abi": 42}` is neither a bare list nor an object
wrapping a list, so by the claim the loader must fail with a format error;
the code (`load_abi_parsed`) instead returns the wrapped non-list value
`42`, while the claimed behaviour (`load_abi_spec`) errors. -/
theorem C6_counterexample :
    load_abi_parsed "ERC20Standard.json" (Json.obj [("abi", Json.num 42)])
      = Except.ok (Json.num 42) ∧
    load_abi_spec "ERC20Standard.json" (Json.obj [("abi", Json.num 42)])
      = Except.error (Err.invalidAbiFormat "ERC20Standard.json") := by
  constructor <;> rfl

/-- C6 (amended): the loader has exactly three branches — a bare list is
returned unchanged; an object with an `"abi"` field yields that field's
value, whatever its shape (no list check); any other input (non-list
non-object, or object without the field) fails with the format error. -/
theorem C6_loader_branches (filename : String) (j : Json) :
    (Json.isArr j = true → load_abi_parsed filename j = Except.ok j) ∧
    (∀ v, Json.abiField j = some v → load_abi_parsed filename j = Except.ok v) ∧
    (Json.isArr j = false → Json.abiField j = none →
      load_abi_parsed filename j = Except.error (Err.invalidAbiFormat filename)) := by
  refine ⟨?_, ?_, ?_⟩
  · intro harr
    cases j <;> simp_all [Json.isArr, load_abi_parsed]
  · intro v hv
    cases j <;> simp_all [Json.abiField, load_abi_parsed]
  · intro harr habi
    cases j with
    | arr elems => simp [Json.isArr] at harr
    | obj fields =>
        simp only [Json.abiField] at habi
        simp [load_abi_parsed, habi]
    | null => rfl
    | bool b => rfl
    | num n => rfl
    | str s => rfl

/-- C6 witness: the bare-list branch and the error branch at concrete
inputs. -/
theorem C6_witness :
    load_abi_parsed "UniswapV3Quoter.json" (Json.arr [])
      = Except.ok (Json.arr []) ∧
    load_abi_parsed "UniswapV3Quoter.json" (Json.num 3)
      = Except.error (Err.invalidAbiFormat "UniswapV3Quoter.json") :=
  ⟨(C6_loader_branches "UniswapV3Quoter.json" (Json.arr [])).1 rfl,
   (C6_loader_branches "UniswapV3Quoter.json" (Json.num 3)).2.2 rfl rfl⟩
